import Mathlib

/-!
Verification of the jamm-pwa location-gate and live-map state machine.

The definitions below are a shallow embedding of `src/App.tsx`.  The file
contains two evolving variants of the `App` component; the second (gated)
variant starting at line 765 is the operative one, and where the two
variants differ in behaviour (the movement simulator's error handling)
both are embedded, suffixed `V1` (lines 165-185) and `V2` (lines 973-990).
JavaScript numbers are modelled as real numbers, `localStorage` as an
explicit boolean field of the state, geolocation and Supabase calls as
explicit outcome parameters, and React's effect reconciliation for the
movement-simulation interval as an explicit bookkeeping step.
-/

namespace Jamm

open Real

/-! ## Definitions: the shallow embedding of the program -/

/-- Model of JavaScript's `Math.atan2 y x` on the reals (the NaN cases do
not arise in this embedding). -/
noncomputable def atan2 (y x : ℝ) : ℝ :=
  if 0 < x then Real.arctan (y / x)
  else if x < 0 ∧ 0 ≤ y then Real.arctan (y / x) + π
  else if x < 0 ∧ y < 0 then Real.arctan (y / x) - π
  else if x = 0 ∧ 0 < y then π / 2
  else if x = 0 ∧ y < 0 then -(π / 2)
  else 0

/-- Trichy center coordinates, `App.tsx` lines 721-722. -/
def TRICHY_CENTER : ℝ × ℝ := (10.8155, 78.7047)

/-- Service radius in kilometres, `App.tsx` line 722. -/
def TRICHY_RADIUS_KM : ℝ := 15

/-- The `a` term of the haversine formula as computed by
`calculateDistance` (`App.tsx` lines 815-818), spelled out so that proofs
can refer to it. -/
noncomputable def havTerm (lat1 lon1 lat2 lon2 : ℝ) : ℝ :=
  Real.sin ((lat2 - lat1) * π / 180 / 2) * Real.sin ((lat2 - lat1) * π / 180 / 2) +
    Real.cos (lat1 * π / 180) * Real.cos (lat2 * π / 180) *
      (Real.sin ((lon2 - lon1) * π / 180 / 2) * Real.sin ((lon2 - lon1) * π / 180 / 2))

/-- Embedding of `calculateDistance` (`App.tsx` lines 811-821): the
haversine formula with Earth radius 6371 km, written exactly as in the
source. -/
noncomputable def calculateDistance (lat1 lon1 lat2 lon2 : ℝ) : ℝ :=
  let R : ℝ := 6371
  let dLat := (lat2 - lat1) * π / 180
  let dLon := (lon2 - lon1) * π / 180
  let a :=
    Real.sin (dLat / 2) * Real.sin (dLat / 2) +
      Real.cos (lat1 * π / 180) * Real.cos (lat2 * π / 180) *
        (Real.sin (dLon / 2) * Real.sin (dLon / 2))
  let c := 2 * atan2 (Real.sqrt a) (Real.sqrt (1 - a))
  R * c

/-- Hotspot row, `App.tsx` lines 724-731. -/
structure Hotspot where
  id : Int
  name : String
  latitude : ℝ
  longitude : ℝ
  provider_count : Int
  status : String

/-- Route of a provider, `App.tsx` lines 742-745. -/
structure ProviderRoute where
  pickupLat : ℝ
  pickupLng : ℝ
  pickupName : String
  dropLat : ℝ
  dropLng : ℝ
  dropName : String

/-- Provider row, `App.tsx` lines 733-746. -/
structure Provider where
  id : String
  name : String
  vehicle_number : String
  latitude : ℝ
  longitude : ℝ
  seats_available : Int
  rating : ℝ
  is_online : Bool
  current_route : Option ProviderRoute := none

/-- Screen enumeration, `App.tsx` line 748. -/
inductive Screen where
  | checking
  | blocked
  | splash
  | onboarding
  | map
  | destination
  | providers
  | confirmation
deriving DecidableEq, Repr

/-- Outcome of the single-shot `navigator.geolocation.getCurrentPosition`
request (success callback, error callback, or geolocation missing from
`navigator`). -/
inductive GeoOutcome where
  | success (lat lng : ℝ)
  | failure
  | unsupported

/-- Result of a Supabase select: `{ data, error }`, where a present error
is thrown by the fetch helpers and absent data skips the state update. -/
inductive FetchResult (α : Type) where
  | ok (data : Option α)
  | err

/-- The component state of the gated `App` variant (`App.tsx` lines
766-775) plus the durable `localStorage` flag and the explicit
bookkeeping of the movement-simulation effect (`App.tsx` lines 930-942):
`providersVersion` stands for the identity of the `providers` array (a
fetch always installs a fresh array), `timerCount` is the number of live
`setInterval` handles, `cleanupRegistered` records whether the last
effect run returned a cleanup, and `lastDeps` is the dependency pair
`(showProviderMovement, providers)` the effect last ran with. -/
structure AppState where
  currentScreen : Screen
  hotspots : List Hotspot
  providers : List Provider
  selectedProvider : Option Provider
  loading : Bool
  showProviderMovement : Bool
  demoMode : Bool
  locationChecked : Bool
  storedDemoFlag : Bool
  providersVersion : Nat
  timerCount : Nat
  cleanupRegistered : Bool
  lastDeps : Bool × Nat

/-- The state at mount: screen `checking`, empty snapshots, `loading`
true, movement off; the durable demo flag has whatever value the previous
session persisted. -/
def initState (flag : Bool) : AppState :=
  { currentScreen := .checking
    hotspots := []
    providers := []
    selectedProvider := none
    loading := true
    showProviderMovement := false
    demoMode := false
    locationChecked := false
    storedDemoFlag := flag
    providersVersion := 0
    timerCount := 0
    cleanupRegistered := false
    lastDeps := (false, 0) }

/-- Dependency array of the movement-simulation effect:
`[showProviderMovement, providers]`. -/
def movementDeps (s : AppState) : Bool × Nat :=
  (s.showProviderMovement, s.providersVersion)

/-- React's handling of the movement-simulation effect after a commit: if
the dependencies are unchanged nothing happens; otherwise the previously
registered cleanup (if any) clears the interval, and the effect body
starts a new interval exactly when `showProviderMovement &&
providers.length > 0`. -/
def reconcile (s : AppState) : AppState :=
  if movementDeps s = s.lastDeps then s
  else
    let t := if s.cleanupRegistered then s.timerCount - 1 else s.timerCount
    if s.showProviderMovement = true ∧ 0 < s.providers.length then
      { s with timerCount := t + 1, cleanupRegistered := true, lastDeps := movementDeps s }
    else
      { s with timerCount := t, cleanupRegistered := false, lastDeps := movementDeps s }

open Classical in
/-- Embedding of `checkLocation` (`App.tsx` lines 824-891).  `demoParam`
is the `demo` URL search parameter, `geo` the outcome of the geolocation
request.  The second component records whether a geolocation request was
issued (`getCurrentPosition` is only called past the demo check and only
when geolocation is supported). -/
noncomputable def checkLocation (demoParam : Option String) (geo : GeoOutcome)
    (s : AppState) : AppState × Bool :=
  if demoParam = some "true" ∨ s.storedDemoFlag = true then
    if demoParam = some "true" then
      ({ s with
          storedDemoFlag := true
          demoMode := true
          locationChecked := true
          currentScreen := .splash }, false)
    else
      ({ s with demoMode := true, locationChecked := true, currentScreen := .splash }, false)
  else
    match geo with
    | .success lat lng =>
        if calculateDistance lat lng TRICHY_CENTER.1 TRICHY_CENTER.2 ≤ TRICHY_RADIUS_KM then
          ({ s with locationChecked := true, currentScreen := .splash }, true)
        else
          ({ s with locationChecked := true, currentScreen := .blocked }, true)
    | .failure =>
        ({ s with locationChecked := true, currentScreen := .blocked }, true)
    | .unsupported =>
        ({ s with locationChecked := true, currentScreen := .blocked }, false)

/-- Embedding of `enableDemoMode` (`App.tsx` lines 1022-1026). -/
def enableDemoMode (s : AppState) : AppState :=
  { s with storedDemoFlag := true, demoMode := true, currentScreen := .splash }

/-- Embedding of `exitDemoMode` (`App.tsx` lines 1028-1032): remove the
durable flag, clear the in-memory flag, and run `checkLocation` again. -/
noncomputable def exitDemoMode (demoParam : Option String) (geo : GeoOutcome)
    (s : AppState) : AppState × Bool :=
  checkLocation demoParam geo { s with storedDemoFlag := false, demoMode := false }

/-- Embedding of `goToScreen` (`App.tsx` lines 999-1006), followed by the
effect reconciliation of the commit it triggers. -/
def goToScreen (screen : Screen) (s : AppState) : AppState :=
  reconcile { s with
    showProviderMovement := decide (screen = .map)
    currentScreen := screen }

/-- Embedding of `bookRide` (`App.tsx` lines 1008-1011): it records the
selected provider and jumps to the confirmation screen; it does not touch
`showProviderMovement`. -/
def bookRide (p : Provider) (s : AppState) : AppState :=
  reconcile { s with selectedProvider := some p, currentScreen := .confirmation }

/-- Embedding of `fetchHotspots` (`App.tsx` lines 944-957).  Besides the
new state it returns how many times the loading flag was cleared and how
many errors were logged by this call. -/
def fetchHotspots (r : FetchResult (List Hotspot)) (s : AppState) :
    AppState × Nat × Nat :=
  match r with
  | .ok d =>
      let s1 := match d with
        | some data => { s with hotspots := data }
        | none => s
      ({ s1 with loading := false }, 1, 0)
  | .err => ({ s with loading := false }, 1, 1)

/-- Embedding of `fetchProviders` (`App.tsx` lines 959-971), with the
same instrumentation as `fetchHotspots`.  Note that it has no `finally`
clause and never touches the loading flag.  A successful fetch installs a
fresh providers array, so the movement effect's dependencies change and
are reconciled. -/
def fetchProviders (r : FetchResult (List Provider)) (s : AppState) :
    AppState × Nat × Nat :=
  match r with
  | .ok d =>
      match d with
      | some data =>
          (reconcile { s with providers := data, providersVersion := s.providersVersion + 1 },
            0, 0)
      | none => (s, 0, 0)
  | .err => (s, 0, 1)

/-- One activation of the data-loading effect (`App.tsx` lines 898-903):
`fetchHotspots(); fetchProviders();`.  Returns the final state, the total
number of loading-flag clears and the total number of logged errors. -/
def fetchData (r1 : FetchResult (List Hotspot)) (r2 : FetchResult (List Provider))
    (s : AppState) : AppState × Nat × Nat :=
  let h := fetchHotspots r1 s
  let p := fetchProviders r2 h.1
  (p.1, h.2.1 + p.2.1, h.2.2 + p.2.2)

/-- Embedding of `getHotspotColor` (`App.tsx` lines 1013-1020): the
`switch` statement as an equality chain with default `#999`. -/
def getHotspotColor (status : String) : String :=
  if status = "high" then "#4caf50"
  else if status = "medium" then "#ff9800"
  else if status = "low" then "#f44336"
  else "#999"

/-- Outcome of one Supabase `update` call: success, an error returned in
the result object, or a rejected promise (thrown exception). -/
inductive WriteOutcome where
  | ok
  | errResult
  | exn
deriving DecidableEq

/-- Result of one simulation tick: the ids of the providers whose update
was issued, and the number of errors logged. -/
structure TickResult where
  attempted : List String
  logs : Nat
deriving DecidableEq

/-- Embedding of the first variant of `simulateProviderMovement`
(`App.tsx` lines 165-185): each write's error is checked and thrown
(`if (error) throw error`), so the surrounding catch logs it once and the
remaining providers of the tick are skipped; a rejected write does the
same. -/
def simulateProviderMovementV1 (outcome : String → WriteOutcome) :
    List Provider → TickResult
  | [] => ⟨[], 0⟩
  | p :: ps =>
      match outcome p.id with
      | .ok =>
          let r := simulateProviderMovementV1 outcome ps
          ⟨p.id :: r.attempted, r.logs⟩
      | .errResult => ⟨[p.id], 1⟩
      | .exn => ⟨[p.id], 1⟩

/-- Embedding of the second variant of `simulateProviderMovement`
(`App.tsx` lines 973-990): the result object of each write is discarded,
so an error result neither aborts the loop nor is logged; only a rejected
write escapes to the catch, which logs once and ends the tick. -/
def simulateProviderMovementV2 (outcome : String → WriteOutcome) :
    List Provider → TickResult
  | [] => ⟨[], 0⟩
  | p :: ps =>
      match outcome p.id with
      | .exn => ⟨[p.id], 1⟩
      | _ =>
          let r := simulateProviderMovementV2 outcome ps
          ⟨p.id :: r.attempted, r.logs⟩

/-- Events of the application. -/
inductive Event where
  | checkLoc (demoParam : Option String) (geo : GeoOutcome)
  | splashTimeout
  | nav (screen : Screen)
  | book (p : Provider)
  | hotspotsFetched (r : FetchResult (List Hotspot))
  | providersFetched (r : FetchResult (List Provider))
  | enableDemo
  | exitDemo (demoParam : Option String) (geo : GeoOutcome)

/-- Effect of one event on the state. -/
noncomputable def stepEv (s : AppState) : Event → AppState
  | .checkLoc dp geo => (checkLocation dp geo s).1
  | .splashTimeout => { s with currentScreen := .onboarding }
  | .nav screen => goToScreen screen s
  | .book p => bookRide p s
  | .hotspotsFetched r => (fetchHotspots r s).1
  | .providersFetched r => (fetchProviders r s).1
  | .enableDemo => enableDemoMode s
  | .exitDemo dp geo => (exitDemoMode dp geo s).1

/-- Navigation targets offered by the render code of each screen
(`App.tsx` lines 1283, 1315, 1362, 1461, 1580, 1600, 1618, 1652, 1755):
`goToScreen` is never invoked with `confirmation`, `blocked`, `checking`
or `splash`. -/
def navTargets : Screen → List Screen
  | .onboarding => [.map]
  | .map => [.destination, .providers]
  | .destination => [.map, .providers]
  | .providers => [.destination]
  | .confirmation => [.map]
  | _ => []

/-- Which events the UI makes available in a given state: the automatic
location check fires on mount (`App.tsx` line 894), the splash timer on
the splash screen (line 994), navigation per `navTargets`, booking from a
provider marker on the map (line 1491) or from the providers list (line
1662), data fetches once the gate has been passed (lines 899 and 907),
the demo opt-in from the blocked screen (line 1154) and the demo exit
from the demo banner (line 1218). -/
def Allowed (s : AppState) : Event → Prop
  | .checkLoc _ _ => s.currentScreen = .checking
  | .splashTimeout => s.currentScreen = .splash
  | .nav screen => screen ∈ navTargets s.currentScreen
  | .book p => (s.currentScreen = .map ∨ s.currentScreen = .providers) ∧ p ∈ s.providers
  | .hotspotsFetched _ =>
      s.locationChecked = true ∧ s.currentScreen ≠ .blocked ∧ s.currentScreen ≠ .checking
  | .providersFetched _ =>
      s.locationChecked = true ∧ s.currentScreen ≠ .blocked ∧ s.currentScreen ≠ .checking
  | .enableDemo => s.currentScreen = .blocked
  | .exitDemo _ _ => s.demoMode = true

/-- Run a list of events from a state. -/
noncomputable def runTrace (s : AppState) : List Event → AppState
  | [] => s
  | e :: es => runTrace (stepEv s e) es

/-- A trace is valid from a state when every event is available in the
state it fires from. -/
def ValidFrom (s : AppState) : List Event → Prop
  | [] => True
  | e :: es => Allowed s e ∧ ValidFrom (stepEv s e) es

/-- The provider selected by the last `book` event of a trace. -/
def lastBook : List Event → Option Provider
  | [] => none
  | e :: es =>
      match lastBook es with
      | some q => some q
      | none => match e with
        | .book p => some p
        | _ => none

/-- A sample online provider. -/
noncomputable def providerA : Provider :=
  { id := "p1", name := "Ravi", vehicle_number := "TN-45-1234", latitude := 10.82,
    longitude := 78.70, seats_available := 3, rating := 4.5, is_online := true }

/-- A second sample online provider. -/
noncomputable def providerB : Provider :=
  { id := "p2", name := "Kumar", vehicle_number := "TN-45-5678", latitude := 10.81,
    longitude := 78.71, seats_available := 2, rating := 4.2, is_online := true }

/-- Write outcomes where the update of provider `p1` fails with an error
result and every other update succeeds. -/
def failFirstWrite : String → WriteOutcome :=
  fun id => if id = "p1" then .errResult else .ok

/-- A state in demo mode on the splash screen, as produced by a launch
with the durable demo flag set. -/
def demoSplashState : AppState :=
  { initState true with demoMode := true, locationChecked := true, currentScreen := .splash }

/-- The trace exhibiting the movement-simulation bug: enter in demo mode,
reach the map, receive one provider (which starts the 3-second interval),
then book that provider directly from its map marker. -/
noncomputable def c5Trace : List Event :=
  [.checkLoc (some "true") .failure, .splashTimeout, .nav .map,
    .providersFetched (.ok (some [providerA])), .book providerA]

/-- The trace exhibiting the residual selected provider: reach the map in
demo mode, receive one provider, book it, then navigate from the
confirmation screen back to the map. -/
noncomputable def c6Trace : List Event :=
  [.checkLoc (some "true") .failure, .splashTimeout, .nav .map,
    .providersFetched (.ok (some [providerA])), .book providerA, .nav .map]

/-- A trace ending on the confirmation screen, used to witness the
amended C6 statement. -/
noncomputable def c6WitnessTrace : List Event :=
  [.checkLoc (some "true") .failure, .splashTimeout, .nav .map,
    .providersFetched (.ok (some [providerA])), .book providerA]

/-- The haversine great-circle distance as the specification words it:
Earth radius 6371 km, latitudes and longitudes converted to radians, and
`d = 2 R arcsin (sqrt (sin^2 (dphi/2) + cos phi1 cos phi2 sin^2 (dlambda/2)))`.
This definition follows the spec's words and is compared with the
source's `calculateDistance`. -/
noncomputable def haversineSpec (lat1 lon1 lat2 lon2 : ℝ) : ℝ :=
  2 * 6371 * Real.arcsin (Real.sqrt
    (Real.sin ((lat2 * π / 180 - lat1 * π / 180) / 2) ^ 2 +
      Real.cos (lat1 * π / 180) * Real.cos (lat2 * π / 180) *
        Real.sin ((lon2 * π / 180 - lon1 * π / 180) / 2) ^ 2))

/-! ## Theorems -/

theorem calculateDistance_eq (lat1 lon1 lat2 lon2 : ℝ) :
    calculateDistance lat1 lon1 lat2 lon2 =
      6371 * (2 * atan2 (Real.sqrt (havTerm lat1 lon1 lat2 lon2))
        (Real.sqrt (1 - havTerm lat1 lon1 lat2 lon2))) := rfl

theorem havTerm_comm (lat1 lon1 lat2 lon2 : ℝ) :
    havTerm lat1 lon1 lat2 lon2 = havTerm lat2 lon2 lat1 lon1 := by
  unfold havTerm
  rw [show (lat1 - lat2) * π / 180 / 2 = -((lat2 - lat1) * π / 180 / 2) by ring,
    show (lon1 - lon2) * π / 180 / 2 = -((lon2 - lon1) * π / 180 / 2) by ring,
    Real.sin_neg, Real.sin_neg]
  ring

theorem havTerm_self (lat lon : ℝ) : havTerm lat lon lat lon = 0 := by
  unfold havTerm
  rw [show (lat - lat) * π / 180 / 2 = 0 by ring,
    show (lon - lon) * π / 180 / 2 = 0 by ring, Real.sin_zero]
  ring

theorem atan2_zero_one : atan2 (Real.sqrt 0) (Real.sqrt (1 - 0)) = 0 := by
  unfold atan2
  rw [if_pos (by rw [sub_zero, Real.sqrt_one]; norm_num)]
  rw [Real.sqrt_zero, zero_div, Real.arctan_zero]

theorem reconcile_currentScreen (s : AppState) :
    (reconcile s).currentScreen = s.currentScreen := by
  unfold reconcile
  split
  · rfl
  · split <;> split <;> rfl

theorem reconcile_selectedProvider (s : AppState) :
    (reconcile s).selectedProvider = s.selectedProvider := by
  unfold reconcile
  split
  · rfl
  · split <;> split <;> rfl

theorem checkLocation_screen_cases (dp : Option String) (geo : GeoOutcome) (s : AppState) :
    (checkLocation dp geo s).1.currentScreen = .splash ∨
      (checkLocation dp geo s).1.currentScreen = .blocked := by
  unfold checkLocation
  split
  · split
    · exact Or.inl rfl
    · exact Or.inl rfl
  · cases geo with
    | success lat lng =>
        dsimp only
        split
        · exact Or.inl rfl
        · exact Or.inr rfl
    | failure => exact Or.inr rfl
    | unsupported => exact Or.inr rfl

theorem checkLocation_selectedProvider (dp : Option String) (geo : GeoOutcome) (s : AppState) :
    (checkLocation dp geo s).1.selectedProvider = s.selectedProvider := by
  unfold checkLocation
  split
  · split
    · rfl
    · rfl
  · cases geo with
    | success lat lng =>
        dsimp only
        split
        · rfl
        · rfl
    | failure => rfl
    | unsupported => rfl

theorem fetchHotspots_screen_sel (r : FetchResult (List Hotspot)) (s : AppState) :
    (fetchHotspots r s).1.currentScreen = s.currentScreen ∧
      (fetchHotspots r s).1.selectedProvider = s.selectedProvider := by
  cases r with
  | ok d => cases d <;> exact ⟨rfl, rfl⟩
  | err => exact ⟨rfl, rfl⟩

theorem fetchProviders_screen_sel (r : FetchResult (List Provider)) (s : AppState) :
    (fetchProviders r s).1.currentScreen = s.currentScreen ∧
      (fetchProviders r s).1.selectedProvider = s.selectedProvider := by
  cases r with
  | ok d =>
      cases d with
      | some data =>
          have he : (fetchProviders (.ok (some data)) s).1 =
              reconcile { s with providers := data, providersVersion := s.providersVersion + 1 } :=
            rfl
          exact ⟨by rw [he, reconcile_currentScreen], by rw [he, reconcile_selectedProvider]⟩
      | none => exact ⟨rfl, rfl⟩
  | err => exact ⟨rfl, rfl⟩

theorem navTargets_ne_confirmation (a scr : Screen) (h : scr ∈ navTargets a) :
    scr ≠ .confirmation := by
  intro hcontra
  subst hcontra
  cases a <;> simp [navTargets] at h

/-- Key invariant behind the amended C6: along every valid trace, being
on the confirmation screen means the selected provider is exactly the one
of the most recent `book` event (or, degenerately, the trace never booked
and the start state was already on confirmation with its selection
untouched). -/
theorem runTrace_confirmation_lastBook :
    ∀ (evs : List Event) (s : AppState), ValidFrom s evs →
      (runTrace s evs).currentScreen = .confirmation →
      (∃ p, lastBook evs = some p ∧ (runTrace s evs).selectedProvider = some p) ∨
        (lastBook evs = none ∧ s.currentScreen = .confirmation ∧
          (runTrace s evs).selectedProvider = s.selectedProvider) := by
  intro evs
  induction evs with
  | nil => exact fun s hv hconf => Or.inr ⟨rfl, hconf, rfl⟩
  | cons e es ih =>
      intro s hv hconf
      obtain ⟨hall, hv2⟩ := hv
      have hrun : runTrace s (e :: es) = runTrace (stepEv s e) es := rfl
      rw [hrun] at hconf ⊢
      rcases ih (stepEv s e) hv2 hconf with ⟨p, hlb, hsel⟩ | ⟨hlb, hscr, hsel⟩
      · exact Or.inl ⟨p, by simp [lastBook, hlb], hsel⟩
      · cases e with
        | book p =>
            refine Or.inl ⟨p, by simp [lastBook, hlb], ?_⟩
            rw [hsel]
            show (bookRide p s).selectedProvider = some p
            unfold bookRide
            rw [reconcile_selectedProvider]
        | checkLoc dp geo =>
            rcases checkLocation_screen_cases dp geo s with h | h <;>
              · rw [show stepEv s (.checkLoc dp geo) = (checkLocation dp geo s).1 from rfl,
                  h] at hscr
                cases hscr
        | splashTimeout => cases hscr
        | nav scr =>
            have hscr2 : scr = .confirmation := by
              rw [show stepEv s (.nav scr) = goToScreen scr s from rfl] at hscr
              unfold goToScreen at hscr
              rw [reconcile_currentScreen] at hscr
              exact hscr
            exact absurd hscr2 (navTargets_ne_confirmation s.currentScreen scr hall)
        | hotspotsFetched r =>
            obtain ⟨h1, h2⟩ := fetchHotspots_screen_sel r s
            refine Or.inr ⟨by simp [lastBook, hlb], ?_, ?_⟩
            · rw [show stepEv s (.hotspotsFetched r) = (fetchHotspots r s).1 from rfl,
                h1] at hscr
              exact hscr
            · rw [hsel]
              exact h2
        | providersFetched r =>
            obtain ⟨h1, h2⟩ := fetchProviders_screen_sel r s
            refine Or.inr ⟨by simp [lastBook, hlb], ?_, ?_⟩
            · rw [show stepEv s (.providersFetched r) = (fetchProviders r s).1 from rfl,
                h1] at hscr
              exact hscr
            · rw [hsel]
              exact h2
        | enableDemo => cases hscr
        | exitDemo dp geo =>
            rcases checkLocation_screen_cases dp geo
                { s with storedDemoFlag := false, demoMode := false } with h | h <;>
              · rw [show stepEv s (.exitDemo dp geo) =
                    (checkLocation dp geo
                      { s with storedDemoFlag := false, demoMode := false }).1 from rfl,
                  h] at hscr
                cases hscr

theorem atan2_pos_x (y x : ℝ) (h : 0 < x) : atan2 y x = Real.arctan (y / x) := by
  unfold atan2
  rw [if_pos h]

theorem arctan_le_self (x : ℝ) (h : 0 ≤ x) : Real.arctan x ≤ x := by
  rcases h.eq_or_lt with rfl | hx
  · simp
  · have h1 : 0 < Real.arctan x := by
      have h2 := Real.arctan_strictMono hx
      rwa [Real.arctan_zero] at h2
    have h3 := Real.lt_tan h1 (Real.arctan_lt_pi_div_two x)
    rw [Real.tan_arctan] at h3
    exact h3.le

theorem dist_expr_gt (A c : ℝ) (hA0 : 0 ≤ A) (hA1 : A < 1)
    (hc0 : 0 < c) (hcπ : c < π / 2) (htan : Real.tan c < Real.sqrt A) :
    6371 * (2 * c) < 6371 * (2 * atan2 (Real.sqrt A) (Real.sqrt (1 - A))) := by
  have h1A : 0 < 1 - A := by linarith
  have hs1pos : 0 < Real.sqrt (1 - A) := Real.sqrt_pos.mpr h1A
  have hs1le : Real.sqrt (1 - A) ≤ 1 := by
    have h2 : Real.sqrt (1 - A) ≤ Real.sqrt 1 := Real.sqrt_le_sqrt (by linarith)
    rwa [Real.sqrt_one] at h2
  rw [atan2_pos_x _ _ hs1pos]
  have hq : Real.sqrt A ≤ Real.sqrt A / Real.sqrt (1 - A) := by
    rw [le_div_iff hs1pos]
    exact mul_le_of_le_one_right (Real.sqrt_nonneg A) hs1le
  have h3 : Real.tan c < Real.sqrt A / Real.sqrt (1 - A) := lt_of_lt_of_le htan hq
  have h4 := Real.arctan_strictMono h3
  rw [Real.arctan_tan (by linarith [Real.pi_pos]) hcπ] at h4
  linarith

theorem dist_expr_le (A q : ℝ) (hA0 : 0 ≤ A) (hA1 : A < 1) (hq0 : 0 ≤ q)
    (hq : Real.sqrt A ≤ q * Real.sqrt (1 - A)) :
    6371 * (2 * atan2 (Real.sqrt A) (Real.sqrt (1 - A))) ≤ 6371 * (2 * q) := by
  have h1A : 0 < 1 - A := by linarith
  have hs1pos : 0 < Real.sqrt (1 - A) := Real.sqrt_pos.mpr h1A
  rw [atan2_pos_x _ _ hs1pos]
  have h2 : Real.sqrt A / Real.sqrt (1 - A) ≤ q := by
    rw [div_le_iff hs1pos]
    exact hq
  have h3 : 0 ≤ Real.sqrt A / Real.sqrt (1 - A) :=
    div_nonneg (Real.sqrt_nonneg A) (Real.sqrt_nonneg (1 - A))
  have h4 := arctan_le_self _ h3
  linarith

theorem cosPhi_lower : (0.98218:ℝ) < Real.cos (10.8155 * π / 180) := by
  have hπu := Real.pi_lt_d6
  have hπl := Real.pi_gt_d6
  have hφpos : (0:ℝ) < 10.8155 * π / 180 := by positivity
  have hφu : (10.8155:ℝ) * π / 180 < 0.18878 := by nlinarith
  have h1 := Real.one_sub_sq_div_two_le_cos (x := 10.8155 * π / 180)
  nlinarith

theorem sinu_lower : (0.0017445:ℝ) < Real.sin (π / 1800) := by
  have hπu := Real.pi_lt_d6
  have hπl := Real.pi_gt_d6
  have hul : (0.00174532:ℝ) < π / 1800 := by linarith
  have huu : π / 1800 < 0.00174533 := by linarith
  have h := Real.sin_gt_sub_cube (x := π / 1800) (by positivity) (by nlinarith)
  have hsq : (π / 1800) ^ 2 < 0.00000305 := by nlinarith
  have hcube : (π / 1800) ^ 3 < 0.00174533 * 0.00000305 := by nlinarith
  nlinarith

theorem sinu_upper : Real.sin (π / 1800) < 0.00174533 := by
  have hπu := Real.pi_lt_d6
  have huu : π / 1800 < 0.00174533 := by linarith
  exact lt_trans (Real.sin_lt (by positivity)) huu

theorem prodA_lower :
    (0.00171:ℝ) < Real.cos (10.8155 * π / 180) * Real.sin (π / 1800) := by
  have h1 := cosPhi_lower
  have h2 := sinu_lower
  nlinarith

theorem prodA_upper :
    Real.cos (10.8155 * π / 180) * Real.sin (π / 1800) < 0.0018 := by
  have h1 := Real.cos_le_one (10.8155 * π / 180)
  have h2 := sinu_upper
  have h3 := sinu_lower
  have h4 := cosPhi_lower
  nlinarith

theorem havA_eq :
    havTerm 10.8155 78.9047 10.8155 78.7047 =
      (Real.cos (10.8155 * π / 180) * Real.sin (π / 1800)) *
        (Real.cos (10.8155 * π / 180) * Real.sin (π / 1800)) := by
  unfold havTerm
  rw [show ((10.8155:ℝ) - 10.8155) * π / 180 / 2 = 0 by ring,
    show ((78.7047:ℝ) - 78.9047) * π / 180 / 2 = -(π / 1800) by ring,
    Real.sin_zero, Real.sin_neg]
  ring

theorem tanc0_lt :
    Real.tan 0.0011775 < Real.cos (10.8155 * π / 180) * Real.sin (π / 1800) := by
  have hcos : (0.9:ℝ) < Real.cos 0.0011775 := by
    have h1 := Real.one_sub_sq_div_two_le_cos (x := (0.0011775:ℝ))
    nlinarith
  have hsin : Real.sin 0.0011775 < 0.0011775 := Real.sin_lt (by norm_num)
  have hp := prodA_lower
  rw [Real.tan_eq_sin_div_cos, div_lt_iff (by linarith)]
  have hc1 := Real.cos_le_one (0.0011775:ℝ)
  nlinarith

theorem far_point_not_within :
    ¬ calculateDistance 10.8155 78.9047 10.8155 78.7047 ≤ 15 := by
  have hπl := Real.pi_gt_d6
  have hpl := prodA_lower
  have hpu := prodA_upper
  have hApos : 0 ≤ havTerm 10.8155 78.9047 10.8155 78.7047 := by
    rw [havA_eq]; exact mul_self_nonneg _
  have hAlt : havTerm 10.8155 78.9047 10.8155 78.7047 < 1 := by
    rw [havA_eq]; nlinarith
  have hsqrtA : Real.sqrt (havTerm 10.8155 78.9047 10.8155 78.7047) =
      Real.cos (10.8155 * π / 180) * Real.sin (π / 1800) := by
    rw [havA_eq]; exact Real.sqrt_mul_self (by nlinarith)
  have hmain := dist_expr_gt (havTerm 10.8155 78.9047 10.8155 78.7047) 0.0011775
    hApos hAlt (by norm_num) (by nlinarith) (by rw [hsqrtA]; exact tanc0_lt)
  rw [calculateDistance_eq]
  intro hle
  nlinarith

theorem cos_lat_nonneg (lat : ℝ) (h1 : 0 ≤ lat) (h2 : lat ≤ 90) :
    0 ≤ Real.cos (lat * π / 180) := by
  have hπ := Real.pi_pos
  refine Real.cos_nonneg_of_mem_Icc ⟨by nlinarith, by nlinarith⟩

theorem sin_mul_self_le (x : ℝ) : Real.sin x * Real.sin x ≤ x * x := by
  have h := Real.sin_sq_le_sq (x := x)
  rw [sq, sq] at h
  exact h

theorem havB_bounds :
    0 ≤ havTerm 10.85 78.72 10.8155 78.7047 ∧
      havTerm 10.85 78.72 10.8155 78.7047 ≤ 0.00000011 := by
  have hπu := Real.pi_lt_d6
  have hπl := Real.pi_gt_d6
  have hc1 : 0 ≤ Real.cos (10.85 * π / 180) := cos_lat_nonneg 10.85 (by norm_num) (by norm_num)
  have hc2 : 0 ≤ Real.cos (10.8155 * π / 180) :=
    cos_lat_nonneg 10.8155 (by norm_num) (by norm_num)
  have hc1u := Real.cos_le_one (10.85 * π / 180)
  have hc2u := Real.cos_le_one (10.8155 * π / 180)
  have hs1 := sin_mul_self_le (((10.8155:ℝ) - 10.85) * π / 180 / 2)
  have hs2 := sin_mul_self_le (((78.7047:ℝ) - 78.72) * π / 180 / 2)
  have hsq1 : (((10.8155:ℝ) - 10.85) * π / 180 / 2) * (((10.8155:ℝ) - 10.85) * π / 180 / 2) ≤
      0.000000091 := by nlinarith
  have hsq2 : (((78.7047:ℝ) - 78.72) * π / 180 / 2) * (((78.7047:ℝ) - 78.72) * π / 180 / 2) ≤
      0.000000018 := by nlinarith
  have hm1 := mul_self_nonneg (Real.sin (((10.8155:ℝ) - 10.85) * π / 180 / 2))
  have hm2 := mul_self_nonneg (Real.sin (((78.7047:ℝ) - 78.72) * π / 180 / 2))
  have hcc0 : 0 ≤ Real.cos (10.85 * π / 180) * Real.cos (10.8155 * π / 180) :=
    mul_nonneg hc1 hc2
  have hccu : Real.cos (10.85 * π / 180) * Real.cos (10.8155 * π / 180) ≤ 1 :=
    mul_le_one hc1u hc2 hc2u
  constructor
  · unfold havTerm
    nlinarith [mul_nonneg hcc0 hm2]
  · unfold havTerm
    nlinarith [mul_nonneg hcc0 hm2, mul_le_one hc1u hc2 hc2u]

theorem near_point_within :
    calculateDistance 10.85 78.72 10.8155 78.7047 ≤ 15 := by
  obtain ⟨hB0, hBu⟩ := havB_bounds
  have hB1 : havTerm 10.85 78.72 10.8155 78.7047 < 1 := by linarith
  have hsB : Real.sqrt (havTerm 10.85 78.72 10.8155 78.7047) < 0.000332 := by
    rw [Real.sqrt_lt' (by norm_num)]
    nlinarith
  have hs1 : (0.9:ℝ) ≤ Real.sqrt (1 - havTerm 10.85 78.72 10.8155 78.7047) := by
    rw [Real.le_sqrt (by norm_num) (by linarith)]
    nlinarith
  have hq : Real.sqrt (havTerm 10.85 78.72 10.8155 78.7047) ≤
      0.000369 * Real.sqrt (1 - havTerm 10.85 78.72 10.8155 78.7047) := by
    nlinarith
  have hmain := dist_expr_le (havTerm 10.85 78.72 10.8155 78.7047) 0.000369
    hB0 hB1 (by norm_num) hq
  rw [calculateDistance_eq]
  nlinarith

theorem havTerm_sq_form (lat1 lon1 lat2 lon2 : ℝ) :
    havTerm lat1 lon1 lat2 lon2 =
      Real.sin ((lat2 - lat1) * π / 180 / 2) ^ 2 +
        Real.cos (lat1 * π / 180) * Real.cos (lat2 * π / 180) *
          Real.sin ((lon2 - lon1) * π / 180 / 2) ^ 2 := by
  unfold havTerm
  ring

theorem cos_deg_nonneg (lat : ℝ) (h : |lat| ≤ 90) : 0 ≤ Real.cos (lat * π / 180) := by
  obtain ⟨hl, hr⟩ := abs_le.mp h
  have hπ := Real.pi_pos
  exact Real.cos_nonneg_of_mem_Icc ⟨by nlinarith, by nlinarith⟩

theorem havTerm_nonneg (lat1 lon1 lat2 lon2 : ℝ) (h1 : |lat1| ≤ 90) (h2 : |lat2| ≤ 90) :
    0 ≤ havTerm lat1 lon1 lat2 lon2 := by
  have hc := mul_nonneg (cos_deg_nonneg lat1 h1) (cos_deg_nonneg lat2 h2)
  have h3 := mul_self_nonneg (Real.sin ((lat2 - lat1) * π / 180 / 2))
  have h4 := mul_self_nonneg (Real.sin ((lon2 - lon1) * π / 180 / 2))
  unfold havTerm
  nlinarith [mul_nonneg hc h4]

theorem havTerm_le_one (lat1 lon1 lat2 lon2 : ℝ) (h1 : |lat1| ≤ 90) (h2 : |lat2| ≤ 90) :
    havTerm lat1 lon1 lat2 lon2 ≤ 1 := by
  have hc := mul_nonneg (cos_deg_nonneg lat1 h1) (cos_deg_nonneg lat2 h2)
  have hhalf : Real.sin ((lat2 - lat1) * π / 180 / 2) ^ 2 =
      1 / 2 - Real.cos ((lat2 - lat1) * π / 180) / 2 := by
    rw [Real.sin_sq_eq_half_sub,
      show 2 * ((lat2 - lat1) * π / 180 / 2) = (lat2 - lat1) * π / 180 by ring]
  have hcosd : Real.cos ((lat2 - lat1) * π / 180) =
      Real.cos (lat2 * π / 180) * Real.cos (lat1 * π / 180) +
        Real.sin (lat2 * π / 180) * Real.sin (lat1 * π / 180) := by
    rw [show (lat2 - lat1) * π / 180 = lat2 * π / 180 - lat1 * π / 180 by ring,
      Real.cos_sub]
  have hsum : Real.cos (lat1 * π / 180 + lat2 * π / 180) =
      Real.cos (lat1 * π / 180) * Real.cos (lat2 * π / 180) -
        Real.sin (lat1 * π / 180) * Real.sin (lat2 * π / 180) := Real.cos_add _ _
  have hsumle := Real.cos_le_one (lat1 * π / 180 + lat2 * π / 180)
  have hse : Real.sin ((lon2 - lon1) * π / 180 / 2) ^ 2 ≤ 1 := Real.sin_sq_le_one _
  have hse0 : (0:ℝ) ≤ Real.sin ((lon2 - lon1) * π / 180 / 2) ^ 2 := sq_nonneg _
  rw [havTerm_sq_form, hhalf]
  nlinarith [mul_le_of_le_one_right hc hse]

theorem atan2_sqrt_eq_arcsin (A : ℝ) (h0 : 0 ≤ A) (h1 : A ≤ 1) :
    atan2 (Real.sqrt A) (Real.sqrt (1 - A)) = Real.arcsin (Real.sqrt A) := by
  rcases lt_or_eq_of_le h1 with hlt | heq
  · have hs1pos : 0 < Real.sqrt (1 - A) := Real.sqrt_pos.mpr (by linarith)
    have hmem : Real.sqrt A ∈ Set.Ioo (-(1:ℝ)) 1 := by
      rw [Set.mem_Ioo]
      refine ⟨lt_of_lt_of_le (by norm_num) (Real.sqrt_nonneg A), ?_⟩
      rw [Real.sqrt_lt' (by norm_num)]
      norm_num
      exact hlt
    rw [atan2_pos_x _ _ hs1pos, Real.arcsin_eq_arctan hmem, Real.sq_sqrt h0]
  · subst heq
    rw [sub_self, Real.sqrt_zero, Real.sqrt_one, Real.arcsin_one]
    unfold atan2
    norm_num

theorem calculateDistance_eq_spec (lat1 lon1 lat2 lon2 : ℝ)
    (h1 : |lat1| ≤ 90) (h2 : |lat2| ≤ 90) :
    calculateDistance lat1 lon1 lat2 lon2 = haversineSpec lat1 lon1 lat2 lon2 := by
  rw [calculateDistance_eq,
    atan2_sqrt_eq_arcsin _ (havTerm_nonneg _ _ _ _ h1 h2) (havTerm_le_one _ _ _ _ h1 h2)]
  unfold haversineSpec
  rw [show (lat2 * π / 180 - lat1 * π / 180) / 2 = (lat2 - lat1) * π / 180 / 2 by ring,
    show (lon2 * π / 180 - lon1 * π / 180) / 2 = (lon2 - lon1) * π / 180 / 2 by ring,
    havTerm_sq_form]
  ring

theorem checkLocation_demo (dp : Option String) (geo : GeoOutcome) (s : AppState)
    (h : dp = some "true" ∨ s.storedDemoFlag = true) :
    checkLocation dp geo s =
      if dp = some "true" then
        ({ s with
            storedDemoFlag := true
            demoMode := true
            locationChecked := true
            currentScreen := .splash }, false)
      else
        ({ s with demoMode := true, locationChecked := true, currentScreen := .splash },
          false) := by
  unfold checkLocation
  rw [if_pos h]

theorem checkLocation_success (dp : Option String) (lat lng : ℝ) (s : AppState)
    (h : ¬(dp = some "true" ∨ s.storedDemoFlag = true)) :
    checkLocation dp (.success lat lng) s =
      if calculateDistance lat lng TRICHY_CENTER.1 TRICHY_CENTER.2 ≤ TRICHY_RADIUS_KM then
        ({ s with locationChecked := true, currentScreen := .splash }, true)
      else
        ({ s with locationChecked := true, currentScreen := .blocked }, true) := by
  unfold checkLocation
  rw [if_neg h]

theorem checkLocation_failure (dp : Option String) (s : AppState)
    (h : ¬(dp = some "true" ∨ s.storedDemoFlag = true)) :
    checkLocation dp .failure s =
      ({ s with locationChecked := true, currentScreen := .blocked }, true) := by
  unfold checkLocation
  rw [if_neg h]

theorem checkLocation_unsupported (dp : Option String) (s : AppState)
    (h : ¬(dp = some "true" ∨ s.storedDemoFlag = true)) :
    checkLocation dp .unsupported s =
      ({ s with locationChecked := true, currentScreen := .blocked }, false) := by
  unfold checkLocation
  rw [if_neg h]

/-- C10: `getHotspotColor` is total on arbitrary status strings; every
input other than `high`, `medium` and `low` yields the default color
`#999`, so rendering cannot crash on an unexpected status value. -/
theorem c10_hotspot_color_default (s : String)
    (h1 : s ≠ "high") (h2 : s ≠ "medium") (h3 : s ≠ "low") :
    getHotspotColor s = "#999" := by
  unfold getHotspotColor
  rw [if_neg h1, if_neg h2, if_neg h3]

/-- Witness for C10 at the concrete status string `offline`. -/
theorem c10_witness : getHotspotColor "offline" = "#999" :=
  c10_hotspot_color_default "offline" (by decide) (by decide) (by decide)

/-- C7: a failed hotspot fetch logs one error and changes nothing but the
loading flag; a failed provider fetch logs one error and changes nothing
at all; and across one activation of the data-loading effect (both
fetches) the loading flag is cleared exactly once, whatever the two
outcomes are (the hotspot fetch clears it in its `finally`; the provider
fetch never touches it). -/
theorem c7_fetch_error_handling :
    (∀ s, fetchHotspots .err s = ({ s with loading := false }, 1, 1)) ∧
    (∀ s, fetchProviders .err s = (s, 0, 1)) ∧
    (∀ r1 r2 s, (fetchData r1 r2 s).2.1 = 1) := by
  refine ⟨fun s => rfl, fun s => rfl, fun r1 r2 s => ?_⟩
  cases r1 with
  | ok d =>
      cases d <;>
        (cases r2 with
          | ok d2 => cases d2 <;> rfl
          | err => rfl)
  | err =>
      cases r2 with
      | ok d2 => cases d2 <;> rfl
      | err => rfl

/-- C8 counterexample: in the first variant of
`simulateProviderMovement` (`App.tsx` lines 165-185), a failing write for
the first provider is thrown, so the second provider's update of that
tick is never issued — contradicting the claim that a write failure does
not abort the remaining providers' updates. -/
theorem c8_counterexample :
    simulateProviderMovementV1 failFirstWrite [providerA, providerB] = ⟨["p1"], 1⟩ ∧
    "p2" ∉ (simulateProviderMovementV1 failFirstWrite [providerA, providerB]).attempted := by
  constructor
  · rfl
  · intro h
    rw [show simulateProviderMovementV1 failFirstWrite [providerA, providerB] =
      ⟨["p1"], 1⟩ from rfl] at h
    simp at h

/-- C8 amended: in the final variant (`App.tsx` lines 973-990) a write
failure returned in the result object aborts nothing — every provider's
update of the tick is issued — but it is not logged either; in the
earlier variant (lines 165-185) such a failure is logged once and aborts
the updates of all remaining providers of the tick.  A rejected write
ends the tick in both variants. -/
theorem c8_amended :
    (∀ f (ps : List Provider), (∀ a, f a ≠ .exn) →
      simulateProviderMovementV2 f ps = ⟨ps.map (fun p => p.id), 0⟩) ∧
    (∀ f (p : Provider) (ps : List Provider), f p.id = .errResult →
      simulateProviderMovementV1 f (p :: ps) = ⟨[p.id], 1⟩) := by
  constructor
  · intro f ps hf
    induction ps with
    | nil => rfl
    | cons p ps ih =>
        unfold simulateProviderMovementV2
        cases hfa : f p.id with
        | ok => rw [ih]; rfl
        | errResult => rw [ih]; rfl
        | exn => exact absurd hfa (hf p.id)
  · intro f p ps hf
    unfold simulateProviderMovementV1
    rw [hf]

/-- Witness for C8's amended theorem: with an error-result failure on
`p1`, the final variant still issues the update of every provider in the
tick. -/
theorem c8_witness :
    simulateProviderMovementV2 failFirstWrite [providerA, providerB] =
      ⟨List.map (fun p => p.id) [providerA, providerB], 0⟩ :=
  c8_amended.1 failFirstWrite [providerA, providerB]
    (fun a => by unfold failFirstWrite; split <;> decide)

/-- C2: when the durable demo flag is set or the URL parameter requests
demo mode, `checkLocation` goes straight to the splash screen in demo
mode, issues no geolocation request, and leaves the durable flag set for
future launches. -/
theorem c2_demo_launch (dp : Option String) (geo : GeoOutcome) (s : AppState)
    (h : s.storedDemoFlag = true ∨ dp = some "true") :
    (checkLocation dp geo s).2 = false ∧
    (checkLocation dp geo s).1.currentScreen = .splash ∧
    (checkLocation dp geo s).1.demoMode = true ∧
    (checkLocation dp geo s).1.storedDemoFlag = true := by
  have hcond : dp = some "true" ∨ s.storedDemoFlag = true := h.symm
  unfold checkLocation
  rw [if_pos hcond]
  by_cases hdp : dp = some "true"
  · rw [if_pos hdp]
    exact ⟨rfl, rfl, rfl, rfl⟩
  · rw [if_neg hdp]
    refine ⟨rfl, rfl, rfl, ?_⟩
    rcases h with hf | hd
    · exact hf
    · exact absurd hd hdp

/-- Witness for C2 at a launch with the durable flag set and no URL
parameter. -/
theorem c2_witness :
    (checkLocation none .failure (initState true)).2 = false ∧
    (checkLocation none .failure (initState true)).1.currentScreen = .splash ∧
    (checkLocation none .failure (initState true)).1.demoMode = true ∧
    (checkLocation none .failure (initState true)).1.storedDemoFlag = true :=
  c2_demo_launch none .failure (initState true) (Or.inl rfl)

/-- C3: with no demo flag, a geolocation failure (error callback or
unsupported geolocation) always resolves to the blocked screen — the
error callback and the unsupported branch are total, so nothing is fatal
— and the explicit demo opt-in from there reaches the splash screen in
demo mode with the flag persisted. -/
theorem c3_geo_failure_blocked (dp : Option String) (geo : GeoOutcome) (s : AppState)
    (h1 : s.storedDemoFlag = false) (h2 : dp ≠ some "true")
    (h3 : geo = .failure ∨ geo = .unsupported) :
    (checkLocation dp geo s).1.currentScreen = .blocked ∧
    (enableDemoMode (checkLocation dp geo s).1).currentScreen = .splash ∧
    (enableDemoMode (checkLocation dp geo s).1).demoMode = true ∧
    (enableDemoMode (checkLocation dp geo s).1).storedDemoFlag = true := by
  have hcond : ¬(dp = some "true" ∨ s.storedDemoFlag = true) := by
    rintro (h | h)
    · exact h2 h
    · rw [h1] at h
      exact Bool.false_ne_true h
  unfold checkLocation
  rw [if_neg hcond]
  rcases h3 with rfl | rfl <;> exact ⟨rfl, rfl, rfl, rfl⟩

/-- Witness for C3 at a fresh launch whose geolocation request fails. -/
theorem c3_witness :
    (checkLocation none .failure (initState false)).1.currentScreen = .blocked ∧
    (enableDemoMode (checkLocation none .failure (initState false)).1).currentScreen = .splash ∧
    (enableDemoMode (checkLocation none .failure (initState false)).1).demoMode = true ∧
    (enableDemoMode (checkLocation none .failure (initState false)).1).storedDemoFlag = true :=
  c3_geo_failure_blocked none .failure (initState false) rfl (by decide) (Or.inl rfl)

/-- C9 counterexample: if the page was opened with `?demo=true`, exiting
demo mode removes the flag but immediately re-enters the demo branch of
`checkLocation`: the durable flag ends up set again and no geolocation
request is issued, so the claim that exiting always re-runs the real
geolocation check is false. -/
theorem c9_counterexample :
    (exitDemoMode (some "true") .failure demoSplashState).1.storedDemoFlag = true ∧
    (exitDemoMode (some "true") .failure demoSplashState).2 = false := by
  exact ⟨rfl, rfl⟩

/-- C9 amended: provided the URL parameter does not itself request demo
mode, exiting demo mode clears the durable flag and the in-memory flag
and re-runs the geolocation check afresh (whenever geolocation is
supported a new request is issued), and the resulting screen does not
depend on any prior verdict held in the state. -/
theorem c9_exit_demo (dp : Option String) (geo : GeoOutcome) (s s' : AppState)
    (h : dp ≠ some "true") (hg : geo ≠ .unsupported) :
    (exitDemoMode dp geo s).1.storedDemoFlag = false ∧
    (exitDemoMode dp geo s).1.demoMode = false ∧
    (exitDemoMode dp geo s).2 = true ∧
    (exitDemoMode dp geo s).1.currentScreen = (exitDemoMode dp geo s').1.currentScreen := by
  have hcond : ∀ t : AppState, ¬(dp = some "true" ∨
      ({ t with storedDemoFlag := false, demoMode := false } : AppState).storedDemoFlag = true) := by
    rintro t (hdp | hflag)
    · exact h hdp
    · exact Bool.false_ne_true hflag
  unfold exitDemoMode
  cases geo with
  | success lat lng =>
      rw [checkLocation_success dp lat lng _ (hcond s),
        checkLocation_success dp lat lng _ (hcond s')]
      by_cases hd : calculateDistance lat lng TRICHY_CENTER.1 TRICHY_CENTER.2 ≤ TRICHY_RADIUS_KM
      · simp only [if_pos hd]
        refine ⟨?_, ?_, ?_, ?_⟩ <;> trivial
      · simp only [if_neg hd]
        refine ⟨?_, ?_, ?_, ?_⟩ <;> trivial
  | failure =>
      rw [checkLocation_failure dp _ (hcond s), checkLocation_failure dp _ (hcond s')]
      exact ⟨rfl, rfl, rfl, rfl⟩
  | unsupported => exact absurd rfl hg

/-- C1: with no demo override, a successful geolocation fix is classified
inside exactly when its `calculateDistance` to the Trichy center is at
most the 15 km radius (the boundary is inclusive: the comparison is
`<=`); the point (10.8155, 78.9047) is classified outside and leads to
the blocked screen, and the point (10.85, 78.72) is classified inside and
leads to the splash screen. -/
theorem c1_geofence (dp : Option String) (s : AppState)
    (h1 : dp ≠ some "true") (h2 : s.storedDemoFlag = false) :
    (∀ lat lng, ((checkLocation dp (.success lat lng) s).1.currentScreen = .splash ↔
        calculateDistance lat lng TRICHY_CENTER.1 TRICHY_CENTER.2 ≤ TRICHY_RADIUS_KM)) ∧
    (checkLocation dp (.success 10.8155 78.9047) s).1.currentScreen = .blocked ∧
    (checkLocation dp (.success 10.85 78.72) s).1.currentScreen = .splash := by
  have hcond : ¬(dp = some "true" ∨ s.storedDemoFlag = true) := by
    rintro (h | h)
    · exact h1 h
    · rw [h2] at h
      exact Bool.false_ne_true h
  refine ⟨fun lat lng => ?_, ?_, ?_⟩
  · rw [checkLocation_success dp lat lng s hcond]
    by_cases hd : calculateDistance lat lng TRICHY_CENTER.1 TRICHY_CENTER.2 ≤ TRICHY_RADIUS_KM
    · rw [if_pos hd]
      exact ⟨fun _ => hd, fun _ => rfl⟩
    · rw [if_neg hd]
      exact ⟨fun hscr => absurd hscr (by simp), fun hdist => absurd hdist hd⟩
  · rw [checkLocation_success dp 10.8155 78.9047 s hcond]
    simp only [TRICHY_CENTER, TRICHY_RADIUS_KM]
    rw [if_neg far_point_not_within]
  · rw [checkLocation_success dp 10.85 78.72 s hcond]
    simp only [TRICHY_CENTER, TRICHY_RADIUS_KM]
    rw [if_pos near_point_within]

/-- C5, evaluation at the failing input: booking a provider directly from
its map marker (`bookRide`, available on the map screen) moves to the
confirmation screen but leaves `showProviderMovement` untouched, so the
movement-simulation interval keeps running while the active screen is not
the map — contradicting the claim that every transition leaving the Map
screen deactivates the simulator. -/
theorem c5_timer_persists_after_booking :
    ValidFrom (initState false) c5Trace ∧
    (runTrace (initState false) c5Trace).currentScreen = .confirmation ∧
    (runTrace (initState false) c5Trace).showProviderMovement = true ∧
    (runTrace (initState false) c5Trace).timerCount = 1 := by
  refine ⟨?_, ?_, ?_, ?_⟩ <;>
    simp [c5Trace, runTrace, stepEv, ValidFrom, Allowed, navTargets, checkLocation,
      goToScreen, bookRide, fetchProviders, reconcile, movementDeps, initState]

/-- C6 counterexample: after booking a provider and navigating from the
confirmation screen back to the map, the selected provider is still held
in the state — the booking value is not cleared by a screen change away
from Confirmation, contradicting the claim that it is non-empty only
between the select action and that screen change. -/
theorem c6_counterexample :
    ValidFrom (initState false) c6Trace ∧
    (runTrace (initState false) c6Trace).currentScreen = .map ∧
    (runTrace (initState false) c6Trace).selectedProvider = some providerA := by
  refine ⟨?_, ?_, ?_⟩ <;>
    simp [c6Trace, runTrace, stepEv, ValidFrom, Allowed, navTargets, checkLocation,
      goToScreen, bookRide, fetchProviders, reconcile, movementDeps, initState]

/-- C6 amended: although the selected provider is never cleared, it
cannot influence a later, different confirmation: along every valid trace
from launch, whenever the confirmation screen is shown the selected
provider is exactly the provider of the most recent select action of the
trace. -/
theorem c6_confirmation_selected (flag : Bool) (evs : List Event)
    (hv : ValidFrom (initState flag) evs)
    (hconf : (runTrace (initState flag) evs).currentScreen = .confirmation) :
    ∃ p, lastBook evs = some p ∧
      (runTrace (initState flag) evs).selectedProvider = some p := by
  rcases runTrace_confirmation_lastBook evs (initState flag) hv hconf with h | ⟨_, hscr, _⟩
  · exact h
  · exact absurd hscr (by simp [initState])

/-- Witness for C6's amended theorem at a concrete trace ending on the
confirmation screen. -/
theorem c6_witness :
    ∃ p, lastBook c6WitnessTrace = some p ∧
      (runTrace (initState false) c6WitnessTrace).selectedProvider = some p :=
  c6_confirmation_selected false c6WitnessTrace
    (by simp [c6WitnessTrace, ValidFrom, Allowed, navTargets, stepEv, checkLocation,
      goToScreen, bookRide, fetchProviders, reconcile, movementDeps, initState])
    (by simp [c6WitnessTrace, runTrace, stepEv, checkLocation, goToScreen, bookRide,
      fetchProviders, reconcile, movementDeps, initState])

/-- C4: `calculateDistance` is symmetric in its two coordinate pairs and
vanishes on equal pairs; for latitudes within the valid range it computes
exactly the haversine great-circle distance with Earth radius 6371 km as
worded by the specification (`haversineSpec`). -/
theorem c4_distance_properties :
    (∀ lat1 lon1 lat2 lon2 : ℝ,
      calculateDistance lat1 lon1 lat2 lon2 = calculateDistance lat2 lon2 lat1 lon1) ∧
    (∀ lat lon : ℝ, calculateDistance lat lon lat lon = 0) ∧
    (∀ lat1 lon1 lat2 lon2 : ℝ, |lat1| ≤ 90 → |lat2| ≤ 90 →
      calculateDistance lat1 lon1 lat2 lon2 = haversineSpec lat1 lon1 lat2 lon2) := by
  refine ⟨fun lat1 lon1 lat2 lon2 => ?_, fun lat lon => ?_,
    fun lat1 lon1 lat2 lon2 h1 h2 => calculateDistance_eq_spec lat1 lon1 lat2 lon2 h1 h2⟩
  · rw [calculateDistance_eq, calculateDistance_eq, havTerm_comm lat1 lon1 lat2 lon2]
  · rw [calculateDistance_eq, havTerm_self, atan2_zero_one]
    ring

/-- Witness for C4's haversine part at the two in-range sample points. -/
theorem c4_witness :
    calculateDistance 10.85 78.72 10.8155 78.7047 =
      haversineSpec 10.85 78.72 10.8155 78.7047 :=
  c4_distance_properties.2.2 10.85 78.72 10.8155 78.7047
    (by rw [abs_le]; norm_num) (by rw [abs_le]; norm_num)

/-- Witness for C1 at a fresh launch with no URL parameter. -/
theorem c1_witness :
    (checkLocation none (.success 10.8155 78.9047) (initState false)).1.currentScreen
        = .blocked ∧
    (checkLocation none (.success 10.85 78.72) (initState false)).1.currentScreen
        = .splash :=
  ⟨(c1_geofence none (initState false) (by decide) rfl).2.1,
    (c1_geofence none (initState false) (by decide) rfl).2.2⟩

/-- Witness for C9's amended theorem at a demo-mode state with no URL
parameter and a failing geolocation request. -/
theorem c9_witness :
    (exitDemoMode none .failure demoSplashState).1.storedDemoFlag = false ∧
    (exitDemoMode none .failure demoSplashState).1.demoMode = false ∧
    (exitDemoMode none .failure demoSplashState).2 = true ∧
    (exitDemoMode none .failure demoSplashState).1.currentScreen =
      (exitDemoMode none .failure (initState true)).1.currentScreen :=
  c9_exit_demo none .failure demoSplashState (initState true) (by decide)
    (fun hg => GeoOutcome.noConfusion hg)

end Jamm
